import Mathlib

/-!
Shallow embedding of the kaggle-scraper core (src/main.py `search_kernels_handler`
and src/data.py) for verification of the specification's claims.

Modelling conventions:
* JSON documents are an explicit `Json` AST; an object node stands for the
  Python dict produced by `json.loads` (keys unique).
* The text codec of the standard `json` module (dump-to-string / parse) is an
  external collaborator; the handler-level model stores the memory file at the
  `Json` level (`MemFile.stored`), while `loadMemory` models the string-level
  branch structure of main.py lines 38-58 parameterised by the parse function.
* The Kaggle API (`api.kernels_list`) is an external collaborator: a run is a
  function of the finite list of fetch outcomes the client produces, one per
  page number starting at 1; pages beyond the list are empty (the client is
  exhausted).
* An `Item` carries the five output fields already stringified
  (`api.string(getattr(...))` is collaborator-side); a page entry is
  `Option Item`, `none` standing for a null kernel entry that main.py skips.
* A KeyboardInterrupt is modelled as a predicate on page numbers: the signal is
  observed at the page boundary, right before the fetch of that page (spec §5
  pins cancellation observation to "between API calls / between
  page-processing steps").
-/

namespace Scraper

/-- JSON values, as produced by `json.loads` (numbers restricted to the
integers, which is all this program serializes). -/
inductive Json where
  | null : Json
  | bool (b : Bool) : Json
  | num (n : Int) : Json
  | str (s : String) : Json
  | arr (elems : List Json) : Json
  | obj (fields : List (String × Json)) : Json

/-- Key lookup in a JSON object (the Python dict access of validation). -/
def lookupField (fields : List (String × Json)) (key : String) : Option Json :=
  match fields with
  | [] => none
  | (k, v) :: rest => if k = key then some v else lookupField rest key

/-- data.py `SearchRecord`: record of a single kernel search operation.
`amount : int = 0` in the source, hence `Int` with a declared default of 0. -/
structure SearchRecord where
  search_str : String
  datetime : String
  file_name : String
  amount : Int
deriving DecidableEq

/-- data.py `KernelSearch`: container for a list of kernel search records,
`search : List[SearchRecord] = Field(default_factory=list)`. -/
structure KernelSearch where
  search : List SearchRecord
deriving DecidableEq

/-- data.py `Memory`: top-level structure, `kernels : KernelSearch = KernelSearch()`. -/
structure Memory where
  kernels : KernelSearch
deriving DecidableEq

/-- `data.Memory()`: the fresh memory value built from the declared defaults. -/
def freshMemory : Memory := ⟨⟨[]⟩⟩

/-- `model_dump` of a `SearchRecord` as a JSON object. -/
def dumpSearchRecord (r : SearchRecord) : Json :=
  .obj [("search_str", .str r.search_str), ("datetime", .str r.datetime),
        ("file_name", .str r.file_name), ("amount", .num r.amount)]

/-- `model_dump` of a `Memory` as the JSON document written to memory.json. -/
def dumpMemory (m : Memory) : Json :=
  .obj [("kernels", .obj [("search", .arr (m.kernels.search.map dumpSearchRecord))])]

/-- Pydantic validation of a `str` field. -/
def asStr (j : Json) : Except String String :=
  match j with
  | .str s => .ok s
  | _ => .error "Input should be a valid string"

/-- Pydantic validation of an `int` field. -/
def asInt (j : Json) : Except String Int :=
  match j with
  | .num n => .ok n
  | _ => .error "Input should be a valid integer"

/-- `SearchRecord.model_validate`: `search_str`, `datetime` and `file_name` are
required; `amount` has the declared default 0 when absent. -/
def validateSearchRecord (j : Json) : Except String SearchRecord :=
  match j with
  | .obj fs => do
    let ss ← match lookupField fs "search_str" with
      | some v => asStr v
      | none => .error "search_str: Field required"
    let dt ← match lookupField fs "datetime" with
      | some v => asStr v
      | none => .error "datetime: Field required"
    let fn ← match lookupField fs "file_name" with
      | some v => asStr v
      | none => .error "file_name: Field required"
    let am ← match lookupField fs "amount" with
      | some v => asInt v
      | none => .ok 0
    .ok ⟨ss, dt, fn, am⟩
  | _ => .error "Input should be an object"

/-- Validation of a JSON array of search records, element by element. -/
def validateRecords (js : List Json) : Except String (List SearchRecord) :=
  match js with
  | [] => .ok []
  | j :: rest => do
    let r ← validateSearchRecord j
    let rs ← validateRecords rest
    .ok (r :: rs)

/-- `KernelSearch.model_validate`: a missing `search` key takes the
`default_factory=list` default. -/
def validateKernelSearch (j : Json) : Except String KernelSearch :=
  match j with
  | .obj fs =>
    match lookupField fs "search" with
    | none => .ok ⟨[]⟩
    | some (.arr xs) => do
      let rs ← validateRecords xs
      .ok ⟨rs⟩
    | some _ => .error "search: Input should be a valid list"
  | _ => .error "Input should be an object"

/-- `Memory.model_validate`: a missing `kernels` key takes the declared
`KernelSearch()` default. -/
def validateMemory (j : Json) : Except String Memory :=
  match j with
  | .obj fs =>
    match lookupField fs "kernels" with
    | none => .ok ⟨⟨[]⟩⟩
    | some v => do
      let ks ← validateKernelSearch v
      .ok ⟨ks⟩
  | _ => .error "Input should be an object"

/-- The message of the ValueError raised by main.py lines 50-53 (both a
json.JSONDecodeError and a pydantic ValidationError, a ValueError subclass,
land in this handler). -/
def corruptMsg (e : String) : String :=
  "Invalid JSON in memory file: " ++ e ++ ". Verify memory file integrity."

/-- Python `str.strip()` (main.py line 41): drop leading and trailing
whitespace characters. -/
def pyStrip (s : String) : String :=
  ⟨((s.data.dropWhile Char.isWhitespace).reverse.dropWhile Char.isWhitespace).reverse⟩

/-- String-level model of main.py lines 38-58: the memory-file content read from
disk (`none` = file absent), and the external `json.loads` parse function.
Returns the loaded memory together with the JSON document freshly written back
to the memory file, when the code writes one. -/
def loadMemory (fileContent : Option String)
    (jsonLoads : String → Except String Json) :
    Except String (Memory × Option Json) :=
  match fileContent with
  | none => .ok (freshMemory, some (dumpMemory freshMemory))
  | some raw =>
    let content := pyStrip raw
    if content = "" then
      .ok (freshMemory, some (dumpMemory freshMemory))
    else
      match jsonLoads content with
      | .error e => .error (corruptMsg e)
      | .ok j =>
        match validateMemory j with
        | .error e => .error (corruptMsg e)
        | .ok m => .ok (m, none)

/-- The observable state of memory.json, with the text codec of the external
`json` module abstracted: `stored j` is content that parses to `j`,
`malformed e` is non-blank content on which `json.loads` raises with message
`e`, `blank` is zero-length or whitespace-only content. -/
inductive MemFile where
  | absent : MemFile
  | blank : MemFile
  | malformed (e : String) : MemFile
  | stored (j : Json) : MemFile

/-- main.py lines 38-58 over `MemFile`: the result is the loaded memory and the
state of memory.json right after loading (rewritten fresh when the file was
absent or blank). -/
def loadMem (mf : MemFile) : Except String (Memory × MemFile) :=
  match mf with
  | .absent => .ok (freshMemory, .stored (dumpMemory freshMemory))
  | .blank => .ok (freshMemory, .stored (dumpMemory freshMemory))
  | .malformed e => .error (corruptMsg e)
  | .stored j =>
    match validateMemory j with
    | .error e => .error (corruptMsg e)
    | .ok m => .ok (m, .stored j)

/-- `memory.kernels.search.append(record)` of main.py lines 118 and 135. -/
def appendRecord (m : Memory) (r : SearchRecord) : Memory :=
  ⟨⟨m.kernels.search ++ [r]⟩⟩

/-- One kernel entry of a fetched page, with the five output fields already
stringified by the collaborator (`api.string(getattr(kernel, ...))`). -/
structure Item where
  ref : String
  title : String
  author : String
  lastRunTime : String
  totalVotes : String
deriving DecidableEq

/-- One page of results: a list of entries, `none` being a null kernel entry
that main.py line 88 skips. -/
abbrev Page := List (Option Item)

/-- Outcome of one `api.kernels_list` call: the page, or a transport error
raised by the client. -/
inductive FetchResult where
  | ok (items : Page) : FetchResult
  | transportError (e : String) : FetchResult

/-- main.py line 62: the CSV header row. -/
def fieldsRow : List String :=
  ["ref", "title", "author", "lastRunTime", "totalVotes"]

/-- main.py line 61: the requested page size. -/
def pageSize : Nat := 100

/-- The CSV row written for one non-null kernel (main.py lines 90-96). -/
def itemRow (i : Item) : List String :=
  [i.ref, i.title, i.author, i.lastRunTime, i.totalVotes]

/-- The data rows one page contributes: one row per non-null entry, in order. -/
def pageRows (items : Page) : List (List String) :=
  (items.filterMap id).map itemRow

/-- The number of non-null entries of a page (= rows written for it, the
`total_rows` increments of main.py line 97). -/
def nonNullCount (items : Page) : Nat :=
  (items.filterMap id).length

/-- How the fetch loop ended: normal completion, a KeyboardInterrupt, or a
propagating transport error. -/
inductive Outcome where
  | completed : Outcome
  | interrupted : Outcome
  | transportFailed (e : String) : Outcome
deriving DecidableEq

/-- What one run of the fetch loop (main.py lines 70-107) did, from the current
iteration on: the `writer.writerow` calls in order (header row included), the
`total_rows` increments, the page numbers passed to `api.kernels_list` in
order, the page contents the client returned, and how the loop ended. -/
structure LoopOut where
  writes : List (List String)
  dataCount : Nat
  fetched : List Nat
  consumed : List Page
  outcome : Outcome

/-- The fetch loop of main.py lines 70-107. `client` lists the fetch outcomes
for page `page`, `page+1`, ...; an exhausted client returns the empty page.
`hw` is `header_written`. `intr p = true` means the KeyboardInterrupt signal
is observed at the boundary right before the fetch of page `p`. -/
def runLoop (intr : Nat → Bool) : List FetchResult → Nat → Bool → LoopOut
  | client, page, hw =>
    if intr page then ⟨[], 0, [], [], .interrupted⟩
    else
      match client with
      | [] => ⟨[], 0, [page], [[]], .completed⟩
      | .transportError e :: _ => ⟨[], 0, [page], [], .transportFailed e⟩
      | .ok items :: rest =>
        if items.isEmpty then ⟨[], 0, [page], [items], .completed⟩
        else
          let hdr : List (List String) := if hw then [] else [fieldsRow]
          let pr := pageRows items
          if items.length < pageSize then
            ⟨hdr ++ pr, nonNullCount items, [page], [items], .completed⟩
          else
            let t := runLoop intr rest (page + 1) true
            ⟨hdr ++ pr ++ t.writes, nonNullCount items + t.dataCount,
             page :: t.fetched, items :: t.consumed, t.outcome⟩

/-- The observable result of one `search_kernels_handler` run: the process
exit (`.error` = an uncaught exception, i.e. a non-zero exit), the final state
of memory.json, the content of the output CSV (`none` = the file was never
created), the SearchRecords appended to the history during this run, and the
page numbers fetched. -/
structure HandlerResult where
  exit : Except String Unit
  memFile : MemFile
  outputFile : Option (List (List String))
  appended : List SearchRecord
  fetched : List Nat

/-- main.py lines 19-140, `search_kernels_handler`: load (and possibly
bootstrap) memory.json, open the output CSV, run the fetch loop, and append
and persist a SearchRecord on completion, or on interruption when at least one
row was written. A transport error is caught nowhere and propagates. -/
def search_kernels_handler (mf : MemFile) (searchTerm nowIso outName : String)
    (client : List FetchResult) (intr : Nat → Bool) : HandlerResult :=
  match loadMem mf with
  | .error e => ⟨.error e, mf, none, [], []⟩
  | .ok (memory, mf1) =>
    let lo := runLoop intr client 1 false
    match lo.outcome with
    | .transportFailed e => ⟨.error e, mf1, some lo.writes, [], lo.fetched⟩
    | .completed =>
      let sr : SearchRecord := ⟨searchTerm, nowIso, outName, (lo.dataCount : Int)⟩
      ⟨.ok (), .stored (dumpMemory (appendRecord memory sr)), some lo.writes,
       [sr], lo.fetched⟩
    | .interrupted =>
      if 0 < lo.dataCount then
        let sr : SearchRecord := ⟨searchTerm, nowIso, outName, (lo.dataCount : Int)⟩
        ⟨.ok (), .stored (dumpMemory (appendRecord memory sr)), some lo.writes,
         [sr], lo.fetched⟩
      else
        ⟨.ok (), mf1, some lo.writes, [], lo.fetched⟩

/-- Does the client entry hold a page (no transport error)? -/
def isOk (fr : FetchResult) : Bool :=
  match fr with
  | .ok _ => true
  | .transportError _ => false

/-- Is the client entry a full page (exactly `pageSize` entries)? -/
def isFullPage (fr : FetchResult) : Bool :=
  match fr with
  | .ok items => items.length == pageSize
  | .transportError _ => false

/-- The data rows a block of successful pages contributes. -/
def preRows (pre : List FetchResult) : List (List String) :=
  match pre with
  | [] => []
  | .ok items :: rest => pageRows items ++ preRows rest
  | .transportError _ :: rest => preRows rest

/-- The row count a block of successful pages contributes. -/
def preCount (pre : List FetchResult) : Nat :=
  match pre with
  | [] => 0
  | .ok items :: rest => nonNullCount items + preCount rest
  | .transportError _ :: rest => preCount rest

/-- The page contents of a block of successful pages. -/
def preConsumed (pre : List FetchResult) : List Page :=
  match pre with
  | [] => []
  | .ok items :: rest => items :: preConsumed rest
  | .transportError _ :: rest => preConsumed rest

/-- A concrete kernel item for witness runs. -/
def demoItem : Item := ⟨"user/kernel", "A Kernel", "user", "2024-01-01 00:00:00", "5"⟩

/-- A concrete full page: exactly `pageSize` non-null items. -/
def demoFullPage : Page := List.replicate pageSize (some demoItem)

/-- A history document whose single record lacks the `amount` field. -/
def recordNoAmountDoc : Json :=
  .obj [("kernels", .obj [("search", .arr [.obj
    [("search_str", .str "cats"), ("datetime", .str "2024-01-01T00:00:00"),
     ("file_name", .str "kernels-20240101-000000.csv")]])])]

/-- A history document whose `kernels` object lacks the `search` field. -/
def kernelsNoSearchDoc : Json := .obj [("kernels", .obj [])]

theorem validate_dump_record (r : SearchRecord) :
    validateSearchRecord (dumpSearchRecord r) = .ok r := by
  simp [dumpSearchRecord, validateSearchRecord, lookupField, asStr, asInt, bind, Except.bind]

theorem validate_dump_records (rs : List SearchRecord) :
    validateRecords (rs.map dumpSearchRecord) = .ok rs := by
  induction rs with
  | nil => rfl
  | cons r rest ih => simp [validateRecords, validate_dump_record, ih, bind, Except.bind]

theorem validate_dump_memory (m : Memory) :
    validateMemory (dumpMemory m) = .ok m := by
  simp [dumpMemory, validateMemory, validateKernelSearch, lookupField, validate_dump_records,
    bind, Except.bind]

theorem pageRows_length (items : Page) :
    (pageRows items).length = nonNullCount items := by
  simp [pageRows, nonNullCount]

theorem preRows_length (pre : List FetchResult) :
    (preRows pre).length = preCount pre := by
  induction pre with
  | nil => rfl
  | cons fr rest ih => cases fr <;> simp [preRows, preCount, pageRows_length, ih]

/-- The `total_rows` counter equals the number of non-null entries of the
pages the client handed out. -/
theorem runLoop_dataCount_consumed (intr : Nat → Bool) (client : List FetchResult)
    (page : Nat) (hw : Bool) :
    (runLoop intr client page hw).dataCount
      = ((runLoop intr client page hw).consumed.map nonNullCount).sum := by
  induction client generalizing page hw with
  | nil => by_cases h : intr page <;> simp [runLoop.eq_def, h, nonNullCount]
  | cons fr rest ih =>
    by_cases h : intr page
    · simp [runLoop.eq_def, h]
    · cases fr with
      | transportError e => simp [runLoop, h]
      | ok items =>
        by_cases he : items.isEmpty
        · rw [List.isEmpty_iff] at he
          subst he
          simp [runLoop, h, nonNullCount]
        · by_cases hs : items.length < pageSize
          · simp [runLoop, h, he, hs]
          · simp [runLoop, h, he, hs, ih]

/-- With the header already written, every write of the loop is a data row:
the write count is the `total_rows` counter. -/
theorem runLoop_writes_len (intr : Nat → Bool) (client : List FetchResult) (page : Nat) :
    (runLoop intr client page true).writes.length
      = (runLoop intr client page true).dataCount := by
  induction client generalizing page with
  | nil => by_cases h : intr page <;> simp [runLoop.eq_def, h]
  | cons fr rest ih =>
    by_cases h : intr page
    · simp [runLoop.eq_def, h]
    · cases fr with
      | transportError e => simp [runLoop, h]
      | ok items =>
        by_cases he : items.isEmpty
        · simp [runLoop, h, he]
        · by_cases hs : items.length < pageSize
          · simp [runLoop, h, he, hs, pageRows_length]
          · simp [runLoop, h, he, hs, pageRows_length, ih]

/-- Starting with no header written, the file is either empty (no row at all)
or the header followed by exactly `total_rows` data rows. -/
theorem runLoop_writes_shape (intr : Nat → Bool) (client : List FetchResult) (page : Nat) :
    ((runLoop intr client page false).writes = []
        ∧ (runLoop intr client page false).dataCount = 0)
    ∨ ∃ dr, (runLoop intr client page false).writes = fieldsRow :: dr
        ∧ dr.length = (runLoop intr client page false).dataCount := by
  by_cases h : intr page
  · left; simp [runLoop.eq_def, h]
  · cases client with
    | nil => left; simp [runLoop, h]
    | cons fr rest =>
      cases fr with
      | transportError e => left; simp [runLoop, h]
      | ok items =>
        by_cases he : items.isEmpty
        · left
          rw [List.isEmpty_iff] at he
          subst he
          simp [runLoop, h, nonNullCount]
        · by_cases hs : items.length < pageSize
          · right
            exact ⟨pageRows items, by simp [runLoop, h, he, hs],
              by simp [runLoop, h, he, hs, pageRows_length]⟩
          · right
            refine ⟨pageRows items ++ (runLoop intr rest (page + 1) true).writes,
              by simp [runLoop, h, he, hs], ?_⟩
            simp [runLoop, h, he, hs, pageRows_length, runLoop_writes_len]

/-- With no interrupt signal and no transport error, the loop always completes
normally. -/
theorem runLoop_all_ok_completed (client : List FetchResult) (page : Nat) (hw : Bool)
    (hok : ∀ fr ∈ client, isOk fr = true) :
    (runLoop (fun _ => false) client page hw).outcome = .completed := by
  induction client generalizing page hw with
  | nil => simp [runLoop]
  | cons fr rest ih =>
    have h1 := hok fr (List.mem_cons_self fr rest)
    have h2 : ∀ x ∈ rest, isOk x = true := fun x hx => hok x (List.mem_cons_of_mem fr hx)
    cases fr with
    | transportError e => simp [isOk] at h1
    | ok items =>
      by_cases he : items.isEmpty
      · simp [runLoop, he]
      · by_cases hs : items.length < pageSize
        · simp [runLoop, he, hs]
        · simp [runLoop, he, hs, ih _ _ h2]

/-- Running the loop on a block of full pages followed by `rest`: every page of
the block is fetched in order (page numbers incremented by one), its rows are
written after the header, and the loop continues into `rest`. -/
theorem runLoop_block (intr : Nat → Bool) (pre rest : List FetchResult) (p : Nat) (hw : Bool)
    (hfull : ∀ fr ∈ pre, isFullPage fr = true)
    (hni : ∀ i, i < pre.length → intr (p + i) = false) :
    runLoop intr (pre ++ rest) p hw =
      ⟨(if hw || pre.isEmpty then [] else [fieldsRow]) ++ preRows pre
         ++ (runLoop intr rest (p + pre.length) (hw || !pre.isEmpty)).writes,
       preCount pre + (runLoop intr rest (p + pre.length) (hw || !pre.isEmpty)).dataCount,
       List.range' p pre.length
         ++ (runLoop intr rest (p + pre.length) (hw || !pre.isEmpty)).fetched,
       preConsumed pre
         ++ (runLoop intr rest (p + pre.length) (hw || !pre.isEmpty)).consumed,
       (runLoop intr rest (p + pre.length) (hw || !pre.isEmpty)).outcome⟩ := by
  induction pre generalizing p hw with
  | nil =>
    simp [preRows, preCount, preConsumed]
  | cons fr pre' ih =>
    have h1 := hfull fr (List.mem_cons_self fr pre')
    cases fr with
    | transportError e => simp [isFullPage] at h1
    | ok items =>
      have hlen : items.length = pageSize := by
        simpa [isFullPage] using h1
      have hne : items.isEmpty = false := by
        cases items with
        | nil => simp [pageSize] at hlen
        | cons a l => rfl
      have hip : intr p = false := by simpa using hni 0 (Nat.succ_pos _)
      have hni' : ∀ i, i < pre'.length → intr (p + 1 + i) = false := by
        intro i hi
        have h2 := hni (i + 1) (by simp; omega)
        have h3 : p + (i + 1) = p + 1 + i := by omega
        rwa [h3] at h2
      have hfull' : ∀ x ∈ pre', isFullPage x = true :=
        fun x hx => hfull x (List.mem_cons_of_mem _ hx)
      have hns : ¬ items.length < pageSize := by simp [hlen]
      have harith : p + 1 + pre'.length = p + (pre'.length + 1) := by omega
      simp only [List.cons_append]
      rw [runLoop]
      simp only [hip, Bool.false_eq_true, if_false, hne, hns]
      rw [ih (p + 1) true hfull' hni']
      simp [harith, List.range'_succ, preRows, preCount, preConsumed, hne,
        List.length_cons, Nat.add_assoc]

/-- Unfolding of the handler on a normally completed run: the SearchRecord
carrying the final `total_rows` is appended and the whole memory persisted. -/
theorem handler_completed (mf : MemFile) (m : Memory) (mf1 : MemFile)
    (t n f : String) (client : List FetchResult) (intr : Nat → Bool)
    (hload : loadMem mf = .ok (m, mf1))
    (hcomp : (runLoop intr client 1 false).outcome = .completed) :
    search_kernels_handler mf t n f client intr
      = ⟨.ok (), .stored (dumpMemory (appendRecord m
            ⟨t, n, f, ((runLoop intr client 1 false).dataCount : Int)⟩)),
         some (runLoop intr client 1 false).writes,
         [⟨t, n, f, ((runLoop intr client 1 false).dataCount : Int)⟩],
         (runLoop intr client 1 false).fetched⟩ := by
  simp [search_kernels_handler, hload, hcomp]

/-- Unfolding of the handler on an interrupted run with at least one row
written: same append-and-persist as completion, and a zero exit. -/
theorem handler_interrupted_pos (mf : MemFile) (m : Memory) (mf1 : MemFile)
    (t n f : String) (client : List FetchResult) (intr : Nat → Bool)
    (hload : loadMem mf = .ok (m, mf1))
    (hint : (runLoop intr client 1 false).outcome = .interrupted)
    (hpos : 0 < (runLoop intr client 1 false).dataCount) :
    search_kernels_handler mf t n f client intr
      = ⟨.ok (), .stored (dumpMemory (appendRecord m
            ⟨t, n, f, ((runLoop intr client 1 false).dataCount : Int)⟩)),
         some (runLoop intr client 1 false).writes,
         [⟨t, n, f, ((runLoop intr client 1 false).dataCount : Int)⟩],
         (runLoop intr client 1 false).fetched⟩ := by
  simp [search_kernels_handler, hload, hint, hpos]

/-- Unfolding of the handler when a fetch raises a transport error: the
exception propagates, nothing is appended, memory.json stays as the load left
it. -/
theorem handler_transport (mf : MemFile) (m : Memory) (mf1 : MemFile)
    (t n f : String) (client : List FetchResult) (intr : Nat → Bool) (e : String)
    (hload : loadMem mf = .ok (m, mf1))
    (ht : (runLoop intr client 1 false).outcome = .transportFailed e) :
    search_kernels_handler mf t n f client intr
      = ⟨.error e, mf1, some (runLoop intr client 1 false).writes, [],
         (runLoop intr client 1 false).fetched⟩ := by
  simp [search_kernels_handler, hload, ht]

/-- C1: for every sequence of pages returned by the search client (no
transport error, no interrupt), the number of data rows written to the output
CSV equals the number of non-null items across all fetched pages, and the
`amount` of the SearchRecord appended to the history equals that same count. -/
theorem C1_row_count_matches (mf : MemFile) (m : Memory) (mf1 : MemFile)
    (t n f : String) (client : List FetchResult)
    (hload : loadMem mf = .ok (m, mf1))
    (hok : ∀ fr ∈ client, isOk fr = true) :
    ∃ dr : List (List String),
      ((search_kernels_handler mf t n f client (fun _ => false)).outputFile = some dr
        ∨ (search_kernels_handler mf t n f client (fun _ => false)).outputFile
            = some (fieldsRow :: dr))
      ∧ dr.length
          = (((runLoop (fun _ => false) client 1 false).consumed).map nonNullCount).sum
      ∧ (search_kernels_handler mf t n f client (fun _ => false)).appended
          = [⟨t, n, f,
              ((((runLoop (fun _ => false) client 1 false).consumed).map
                  nonNullCount).sum : Int)⟩] := by
  have hcomp := runLoop_all_ok_completed client 1 false hok
  have heq := handler_completed mf m mf1 t n f client (fun _ => false) hload hcomp
  have hcnt := runLoop_dataCount_consumed (fun _ => false) client 1 false
  rcases runLoop_writes_shape (fun _ => false) client 1 with ⟨hw0, hc0⟩ | ⟨dr, hdr, hlen⟩
  · refine ⟨[], Or.inl ?_, ?_, ?_⟩
    · rw [heq]; simp [hw0]
    · simp [← hcnt, hc0]
    · rw [heq]; simp [← hcnt, hc0]
  · refine ⟨dr, Or.inr ?_, ?_, ?_⟩
    · rw [heq]; simp [hdr]
    · rw [hlen, hcnt]
    · rw [heq]; simp [← hcnt]

/-- Witness for C1: one short page holding one item and one null entry; one
data row is written after the header and the appended record carries amount 1. -/
theorem C1_witness :
    ∃ dr : List (List String),
      ((search_kernels_handler .absent "q" "2025" "k.csv" [.ok [some demoItem, none]]
          (fun _ => false)).outputFile = some dr
        ∨ (search_kernels_handler .absent "q" "2025" "k.csv" [.ok [some demoItem, none]]
            (fun _ => false)).outputFile = some (fieldsRow :: dr))
      ∧ dr.length
          = (((runLoop (fun _ => false) [.ok [some demoItem, none]] 1 false).consumed).map
              nonNullCount).sum
      ∧ (search_kernels_handler .absent "q" "2025" "k.csv" [.ok [some demoItem, none]]
          (fun _ => false)).appended
          = [⟨"q", "2025", "k.csv",
              ((((runLoop (fun _ => false) [.ok [some demoItem, none]] 1 false).consumed).map
                  nonNullCount).sum : Int)⟩] :=
  C1_row_count_matches .absent freshMemory (.stored (dumpMemory freshMemory))
    "q" "2025" "k.csv" [.ok [some demoItem, none]] rfl (by decide)

/-- C2 counterexample: with an empty first page, the output file is created but
contains nothing at all (not even the header row), and a SearchRecord with
amount 0 IS appended — both contrary to the claim. -/
theorem C2_counterexample :
    (search_kernels_handler .absent "q" "20250101" "kernels.csv" []
        (fun _ => false)).outputFile = some []
      ∧ ([] : List (List String)) ≠ [fieldsRow]
      ∧ (search_kernels_handler .absent "q" "20250101" "kernels.csv" []
          (fun _ => false)).appended = [⟨"q", "20250101", "kernels.csv", 0⟩]
      ∧ ¬ (∀ r ∈ (search_kernels_handler .absent "q" "20250101" "kernels.csv" []
            (fun _ => false)).appended, r.amount ≠ 0) :=
  ⟨rfl, by decide, rfl, by decide⟩

/-- C2 (amended): if the first page fetch returns an empty result set, the
output file exists and is completely empty (no header row is written), a
SearchRecord with amount 0 is appended to the history and persisted, and the
run exits successfully. -/
theorem C2_amended_empty_first_page (mf : MemFile) (m : Memory) (mf1 : MemFile)
    (t n f : String) (client : List FetchResult)
    (hload : loadMem mf = .ok (m, mf1))
    (hfirst : client = [] ∨ ∃ rest, client = .ok [] :: rest) :
    search_kernels_handler mf t n f client (fun _ => false)
      = ⟨.ok (), .stored (dumpMemory (appendRecord m ⟨t, n, f, 0⟩)), some [],
         [⟨t, n, f, 0⟩], [1]⟩ := by
  have hlo : runLoop (fun _ => false) client 1 false = ⟨[], 0, [1], [[]], .completed⟩ := by
    rcases hfirst with h | ⟨rest, h⟩ <;> subst h <;> simp [runLoop]
  have h2 := handler_completed mf m mf1 t n f client (fun _ => false) hload (by rw [hlo])
  rw [h2, hlo]
  rfl

/-- Witness for C2 (amended): an explicit empty first page. -/
theorem C2_witness :
    search_kernels_handler .absent "dogs" "2025" "out.csv" [.ok []] (fun _ => false)
      = ⟨.ok (), .stored (dumpMemory (appendRecord freshMemory ⟨"dogs", "2025", "out.csv", 0⟩)),
         some [], [⟨"dogs", "2025", "out.csv", 0⟩], [1]⟩ :=
  C2_amended_empty_first_page .absent freshMemory (.stored (dumpMemory freshMemory))
    "dogs" "2025" "out.csv" [.ok []] rfl (Or.inr ⟨[], rfl⟩)

/-- C3 counterexample: a document whose record lacks `amount` is accepted with
the silently substituted default 0, and a `kernels` object without `search` is
accepted with an empty history — both contrary to the claim that they are
rejected as invalid. -/
theorem C3_counterexample :
    validateMemory recordNoAmountDoc
        = .ok ⟨⟨[⟨"cats", "2024-01-01T00:00:00", "kernels-20240101-000000.csv", 0⟩]⟩⟩
      ∧ validateMemory kernelsNoSearchDoc = .ok ⟨⟨[]⟩⟩ :=
  ⟨rfl, rfl⟩

/-- C3 (amended): loading a persisted history document yields a Memory or
fails; a record missing the defaulted `amount` field is accepted with the
declared default 0, a `kernels` object missing `search` is accepted with an
empty history, and only a record missing a field without a default
(`search_str`, and likewise `datetime`, `file_name`) is rejected. -/
theorem C3_amended_defaults (fs : List (String × Json)) (s d f : String)
    (hs : lookupField fs "search_str" = some (.str s))
    (hd : lookupField fs "datetime" = some (.str d))
    (hf : lookupField fs "file_name" = some (.str f))
    (ha : lookupField fs "amount" = none)
    (gs : List (String × Json))
    (hg : lookupField gs "search" = none)
    (ks : List (String × Json))
    (hk : lookupField ks "search_str" = none) :
    validateSearchRecord (.obj fs) = .ok ⟨s, d, f, 0⟩
      ∧ validateKernelSearch (.obj gs) = .ok ⟨[]⟩
      ∧ validateSearchRecord (.obj ks) = .error "search_str: Field required" := by
  refine ⟨?_, ?_, ?_⟩
  · simp [validateSearchRecord, hs, hd, hf, ha, asStr, bind, Except.bind]
  · simp [validateKernelSearch, hg]
  · simp [validateSearchRecord, hk, bind, Except.bind]

/-- Witness for C3 (amended): concrete record objects with and without the
required and defaulted fields. -/
theorem C3_witness :
    validateSearchRecord (.obj [("search_str", Json.str "a"), ("datetime", Json.str "b"),
        ("file_name", Json.str "c")]) = .ok ⟨"a", "b", "c", 0⟩
      ∧ validateKernelSearch (.obj [("other", Json.num 1)]) = .ok ⟨[]⟩
      ∧ validateSearchRecord (.obj [("datetime", Json.str "b")])
        = .error "search_str: Field required" :=
  C3_amended_defaults [("search_str", Json.str "a"), ("datetime", Json.str "b"),
    ("file_name", Json.str "c")] "a" "b" "c" rfl rfl rfl rfl
    [("other", Json.num 1)] rfl [("datetime", Json.str "b")] rfl

/-- C4: interrupting after a block of full pages has been processed (N > 0 rows
written), before the run would otherwise terminate, leaves the output file
with exactly the header plus N rows, appends exactly one SearchRecord with
amount = N which is persisted, and the process exits with success. -/
theorem C4_interrupt_partial_save (mf : MemFile) (m : Memory) (mf1 : MemFile)
    (t n f : String) (pre rest : List FetchResult) (intr : Nat → Bool)
    (hload : loadMem mf = .ok (m, mf1))
    (hfull : ∀ fr ∈ pre, isFullPage fr = true)
    (hpos : 0 < preCount pre)
    (hni : ∀ i, i < pre.length → intr (1 + i) = false)
    (hint : intr (1 + pre.length) = true) :
    search_kernels_handler mf t n f (pre ++ rest) intr
      = ⟨.ok (), .stored (dumpMemory (appendRecord m ⟨t, n, f, (preCount pre : Int)⟩)),
         some (fieldsRow :: preRows pre), [⟨t, n, f, (preCount pre : Int)⟩],
         List.range' 1 pre.length⟩
      ∧ (preRows pre).length = preCount pre := by
  have hne : pre.isEmpty = false := by
    cases pre with
    | nil => simp [preCount] at hpos
    | cons a l => rfl
  have hlo : runLoop intr (pre ++ rest) 1 false
      = ⟨fieldsRow :: preRows pre, preCount pre, List.range' 1 pre.length,
         preConsumed pre, .interrupted⟩ := by
    rw [runLoop_block intr pre rest 1 false hfull hni]
    simp [runLoop.eq_def, hint, hne]
  have heq := handler_interrupted_pos mf m mf1 t n f (pre ++ rest) intr hload
    (by rw [hlo]) (by rw [hlo]; exact hpos)
  constructor
  · rw [heq, hlo]
  · exact preRows_length pre

/-- Witness for C4: one full page processed, the interrupt signal observed
before the fetch of page 2; 100 rows are preserved and recorded. -/
theorem C4_witness :
    search_kernels_handler .absent "q" "2025" "k.csv" ([.ok demoFullPage] ++ [])
        (fun p => p == 2)
      = ⟨.ok (), .stored (dumpMemory (appendRecord freshMemory
            ⟨"q", "2025", "k.csv", (preCount [.ok demoFullPage] : Int)⟩)),
         some (fieldsRow :: preRows [.ok demoFullPage]),
         [⟨"q", "2025", "k.csv", (preCount [.ok demoFullPage] : Int)⟩],
         List.range' 1 1⟩
      ∧ (preRows [.ok demoFullPage]).length = preCount [.ok demoFullPage] :=
  C4_interrupt_partial_save .absent freshMemory (.stored (dumpMemory freshMemory))
    "q" "2025" "k.csv" [.ok demoFullPage] [] (fun p => p == 2) rfl
    (by decide) (by decide) (by decide) (by decide)

/-- C5: loading the history file returns a fresh persisted Memory when the
file is absent or blank after stripping, fails with the corrupt-history
ValueError carrying the underlying cause when non-blank content fails to parse
or to validate, and otherwise returns the validated Memory without rewriting
the file. -/
theorem C5_load_contract (jl : String → Except String Json) :
    loadMemory none jl = .ok (freshMemory, some (dumpMemory freshMemory))
    ∧ (∀ s, pyStrip s = "" →
        loadMemory (some s) jl = .ok (freshMemory, some (dumpMemory freshMemory)))
    ∧ (∀ s e, pyStrip s ≠ "" → jl (pyStrip s) = .error e →
        loadMemory (some s) jl = .error (corruptMsg e))
    ∧ (∀ s j e, pyStrip s ≠ "" → jl (pyStrip s) = .ok j → validateMemory j = .error e →
        loadMemory (some s) jl = .error (corruptMsg e))
    ∧ (∀ s j m, pyStrip s ≠ "" → jl (pyStrip s) = .ok j → validateMemory j = .ok m →
        loadMemory (some s) jl = .ok (m, none)) := by
  refine ⟨rfl, ?_, ?_, ?_, ?_⟩
  · intro s hs
    simp [loadMemory, hs]
  · intro s e hs hj
    simp [loadMemory, hs, hj]
  · intro s j e hs hj hv
    simp [loadMemory, hs, hj, hv]
  · intro s j m hs hj hv
    simp [loadMemory, hs, hj, hv]

/-- Witness for C5: a file reading `not json` (parser rejects) fails with the
corrupt-history error; a whitespace-only file bootstraps a fresh Memory. -/
theorem C5_witness :
    loadMemory (some "not json") (fun _ => Except.error "Expecting value")
        = .error (corruptMsg "Expecting value")
      ∧ loadMemory (some "  ") (fun _ => Except.error "Expecting value")
        = .ok (freshMemory, some (dumpMemory freshMemory)) :=
  ⟨(C5_load_contract _).2.2.1 "not json" "Expecting value" (by decide) rfl,
   (C5_load_contract _).2.1 "  " (by decide)⟩

/-- C6: after a block of full pages, a fetched page that holds at least one
item but fewer than `pageSize` (100) ends the run after its rows are written:
the fetch calls are exactly pages 1, 2, ..., k+1 — each successive page number
incremented by one and none fetched after the short page — and the loop
completes. -/
theorem C6_short_page_stops (pre rest : List FetchResult) (items : Page)
    (hfull : ∀ fr ∈ pre, isFullPage fr = true)
    (hpos : 0 < items.length) (hshort : items.length < pageSize) :
    (runLoop (fun _ => false) (pre ++ .ok items :: rest) 1 false).fetched
        = List.range' 1 (pre.length + 1)
      ∧ (runLoop (fun _ => false) (pre ++ .ok items :: rest) 1 false).outcome
        = .completed := by
  have hie : items.isEmpty = false := by
    cases items with
    | nil => simp at hpos
    | cons a l => rfl
  rw [runLoop_block _ pre (.ok items :: rest) 1 false hfull (by simp)]
  constructor
  · simp [runLoop, hie, hshort, List.range'_concat]
  · simp [runLoop, hie, hshort]

/-- Witness for C6: one full page, then a one-item page, then a further page
that must never be fetched; exactly pages 1 and 2 are fetched. -/
theorem C6_witness :
    (runLoop (fun _ => false) ([.ok demoFullPage] ++ .ok [some demoItem]
        :: [.ok [some demoItem]]) 1 false).fetched = List.range' 1 (1 + 1)
      ∧ (runLoop (fun _ => false) ([.ok demoFullPage] ++ .ok [some demoItem]
          :: [.ok [some demoItem]]) 1 false).outcome = .completed :=
  C6_short_page_stops [.ok demoFullPage] [.ok [some demoItem]] [some demoItem]
    (by decide) (by decide) (by decide)

/-- C7: a transport error raised by a page fetch is not retried (every page
fetched exactly once, in order) and not caught: it aborts the run with a
non-zero exit, no SearchRecord is appended for the run, and memory.json stays
exactly as the load step left it. -/
theorem C7_transport_aborts (mf : MemFile) (m : Memory) (mf1 : MemFile)
    (t n f : String) (pre rest : List FetchResult) (e : String)
    (hload : loadMem mf = .ok (m, mf1))
    (hfull : ∀ fr ∈ pre, isFullPage fr = true) :
    search_kernels_handler mf t n f (pre ++ .transportError e :: rest) (fun _ => false)
      = ⟨.error e, mf1,
         some ((if pre.isEmpty then [] else [fieldsRow]) ++ preRows pre), [],
         List.range' 1 (pre.length + 1)⟩ := by
  have hlo : runLoop (fun _ => false) (pre ++ .transportError e :: rest) 1 false
      = ⟨(if pre.isEmpty then [] else [fieldsRow]) ++ preRows pre, preCount pre,
         List.range' 1 (pre.length + 1), preConsumed pre, .transportFailed e⟩ := by
    rw [runLoop_block _ pre (.transportError e :: rest) 1 false hfull (by simp)]
    simp [runLoop, List.range'_concat, Bool.false_or]
    cases pre <;> simp
  have heq := handler_transport mf m mf1 t n f (pre ++ .transportError e :: rest)
    (fun _ => false) e hload (by rw [hlo])
  rw [heq, hlo]

/-- Witness for C7: one full page succeeds, the fetch of page 2 raises; the
run aborts with that error, nothing is appended. -/
theorem C7_witness :
    search_kernels_handler .absent "q" "2025" "k.csv"
        ([.ok demoFullPage] ++ .transportError "ApiException" :: []) (fun _ => false)
      = ⟨.error "ApiException", .stored (dumpMemory freshMemory),
         some ((if ([FetchResult.ok demoFullPage]).isEmpty then [] else [fieldsRow])
            ++ preRows [.ok demoFullPage]), [],
         List.range' 1 (1 + 1)⟩ :=
  C7_transport_aborts .absent freshMemory (.stored (dumpMemory freshMemory))
    "q" "2025" "k.csv" [.ok demoFullPage] [] "ApiException" rfl (by decide)

/-- C8: two sequential runs against the same history file leave a persisted
history holding the old records followed by both new SearchRecords in
insertion order — the first run's record is untouched by the second append. -/
theorem C8_sequential_append (mf : MemFile) (m : Memory) (mf1 : MemFile)
    (t1 n1 f1 t2 n2 f2 : String) (c1 c2 : List FetchResult)
    (hload : loadMem mf = .ok (m, mf1))
    (hok1 : ∀ fr ∈ c1, isOk fr = true) (hok2 : ∀ fr ∈ c2, isOk fr = true) :
    ∃ a1 a2 : Int,
      (search_kernels_handler mf t1 n1 f1 c1 (fun _ => false)).appended = [⟨t1, n1, f1, a1⟩]
      ∧ (search_kernels_handler
            (search_kernels_handler mf t1 n1 f1 c1 (fun _ => false)).memFile
            t2 n2 f2 c2 (fun _ => false)).appended = [⟨t2, n2, f2, a2⟩]
      ∧ (search_kernels_handler
            (search_kernels_handler mf t1 n1 f1 c1 (fun _ => false)).memFile
            t2 n2 f2 c2 (fun _ => false)).memFile
          = .stored (dumpMemory ⟨⟨m.kernels.search
              ++ [⟨t1, n1, f1, a1⟩, ⟨t2, n2, f2, a2⟩]⟩⟩) := by
  have hcomp1 := runLoop_all_ok_completed c1 1 false hok1
  have hcomp2 := runLoop_all_ok_completed c2 1 false hok2
  have heq1 := handler_completed mf m mf1 t1 n1 f1 c1 (fun _ => false) hload hcomp1
  refine ⟨((runLoop (fun _ => false) c1 1 false).dataCount : Int),
          ((runLoop (fun _ => false) c2 1 false).dataCount : Int), ?_, ?_, ?_⟩
  · rw [heq1]
  · rw [heq1]
    rw [handler_completed _
      (appendRecord m ⟨t1, n1, f1, ((runLoop (fun _ => false) c1 1 false).dataCount : Int)⟩)
      (.stored (dumpMemory (appendRecord m
        ⟨t1, n1, f1, ((runLoop (fun _ => false) c1 1 false).dataCount : Int)⟩)))
      t2 n2 f2 c2 (fun _ => false) (by simp [loadMem, validate_dump_memory]) hcomp2]
  · rw [heq1]
    rw [handler_completed _
      (appendRecord m ⟨t1, n1, f1, ((runLoop (fun _ => false) c1 1 false).dataCount : Int)⟩)
      (.stored (dumpMemory (appendRecord m
        ⟨t1, n1, f1, ((runLoop (fun _ => false) c1 1 false).dataCount : Int)⟩)))
      t2 n2 f2 c2 (fun _ => false) (by simp [loadMem, validate_dump_memory]) hcomp2]
    simp [appendRecord]

/-- Witness for C8: two concrete runs on a fresh history; both records end up
persisted in insertion order. -/
theorem C8_witness :
    ∃ a1 a2 : Int,
      (search_kernels_handler .absent "t1" "n1" "f1.csv" [.ok [some demoItem]]
          (fun _ => false)).appended = [⟨"t1", "n1", "f1.csv", a1⟩]
      ∧ (search_kernels_handler
            (search_kernels_handler .absent "t1" "n1" "f1.csv" [.ok [some demoItem]]
              (fun _ => false)).memFile
            "t2" "n2" "f2.csv" [.ok []] (fun _ => false)).appended
          = [⟨"t2", "n2", "f2.csv", a2⟩]
      ∧ (search_kernels_handler
            (search_kernels_handler .absent "t1" "n1" "f1.csv" [.ok [some demoItem]]
              (fun _ => false)).memFile
            "t2" "n2" "f2.csv" [.ok []] (fun _ => false)).memFile
          = .stored (dumpMemory ⟨⟨freshMemory.kernels.search
              ++ [⟨"t1", "n1", "f1.csv", a1⟩, ⟨"t2", "n2", "f2.csv", a2⟩]⟩⟩) :=
  C8_sequential_append .absent freshMemory (.stored (dumpMemory freshMemory))
    "t1" "n1" "f1.csv" "t2" "n2" "f2.csv" [.ok [some demoItem]] [.ok []]
    rfl (by decide) (by decide)

/-- C9: persisting any Memory to the JSON history format and loading it back
yields a structurally and value-equal Memory (and leaves the stored document
unchanged). -/
theorem C9_persist_load_roundtrip (m : Memory) :
    loadMem (.stored (dumpMemory m)) = .ok (m, .stored (dumpMemory m)) := by
  simp [loadMem, validate_dump_memory]

/-- C10: when the history file exists, is non-empty and fails to parse or
validate, the handler raises before the output CSV is ever created and before
the history file is rewritten: no output file, no append, memory.json
unchanged. -/
theorem C10_corrupt_history_no_side_effects (mf : MemFile) (e : String)
    (t n f : String) (client : List FetchResult) (intr : Nat → Bool)
    (hbad : loadMem mf = .error e) :
    search_kernels_handler mf t n f client intr = ⟨.error e, mf, none, [], []⟩ := by
  simp [search_kernels_handler, hbad]

/-- Witness for C10: a malformed history file; the run fails with the corrupt
message, creates no output file and leaves the history file untouched. -/
theorem C10_witness :
    search_kernels_handler (.malformed "Expecting value") "q" "2025" "k.csv" []
        (fun _ => false)
      = ⟨.error (corruptMsg "Expecting value"), .malformed "Expecting value",
         none, [], []⟩ :=
  C10_corrupt_history_no_side_effects (.malformed "Expecting value")
    (corruptMsg "Expecting value") "q" "2025" "k.csv" [] (fun _ => false) rfl

end Scraper
